import Mathlib

/-!
Shallow embedding of `owl_server/k8s.py` (owl-pipeline-scheduler).

The module wraps the kubernetes client: it builds `V1Job` object graphs
(`kube_create_job_object`), submits them (`kube_create_job`), deletes jobs
(`kube_delete_job`) and bulk-deletes completed pods
(`kube_delete_empty_pods`).  The external API (list/delete calls) is modelled
as an explicit environment of call results; Python exceptions are modelled
with `Except`; the Python `x or default` truthiness idiom on strings is
modelled by `pyOrStr`.
-/

namespace OwlK8s

/-- Python `x or default` for an optional string argument: `None` and the
empty string are falsy, so both are replaced by the default. -/
def pyOrStr (x : Option String) (default : String) : String :=
  match x with
  | none => default
  | some s => if s = "" then default else s

/-- The whitespace characters recognised by Python `str.split()` with no
separator argument. -/
def pyIsSpace (c : Char) : Bool :=
  c = ' ' || c = '\t' || c = '\n' || c = '\r' || c = '\x0b' || c = '\x0c'

/-- Accumulator-based core of Python `str.split()`: splits on runs of
whitespace and never produces empty tokens.  `acc` holds the characters of
the token in progress, reversed. -/
def pySplitAux : List Char → List Char → List (List Char)
  | [], [] => []
  | [], a :: as => [(a :: as).reverse]
  | c :: rest, [] =>
      if pyIsSpace c then pySplitAux rest []
      else pySplitAux rest [c]
  | c :: rest, a :: as =>
      if pyIsSpace c then (a :: as).reverse :: pySplitAux rest []
      else pySplitAux rest (c :: a :: as)

/-- Python `s.split()` (no separator). -/
def pySplit (s : String) : List String :=
  (pySplitAux s.data []).map (fun l => String.mk l)

/-- An exception raised by the kubernetes client (`ApiException`); the
payload stands for the message. -/
structure ApiException where
  msg : String
deriving Repr, DecidableEq

/-- A Python runtime error relevant to this module: referencing a local
variable that was never assigned (`UnboundLocalError`). -/
inductive PyError where
  | unboundLocal (var : String)
deriving Repr, DecidableEq

/-- The value returned by `kube_delete_empty_pods` when it completes: the
source ends in a bare `return`, i.e. Python `None`; `int` is included so
that a claimed integer return value is expressible. -/
inductive PyRet where
  | pyNone
  | int (n : Nat)
deriving Repr, DecidableEq

deriving instance DecidableEq for Except

/-- `pod.metadata` as used by the cleanup loop. -/
structure PodMeta where
  name : String
deriving Repr, DecidableEq

/-- `pod.status` as used by the cleanup loop. -/
structure PodStatus where
  phase : String
deriving Repr, DecidableEq

/-- A pod as observed through the list call. -/
structure Pod where
  metadata : PodMeta
  status : PodStatus
deriving Repr, DecidableEq

/-- Environment for `kube_delete_empty_pods`: the outcomes of the external
CoreV1Api calls.  `listResult ns` is what `list_namespaced_pod(ns, ...)`
does; `deleteResult podname ns` is what
`delete_namespaced_pod(podname, ns, deleteoptions)` does. -/
structure PodApi where
  listResult : String → Except ApiException (List Pod)
  deleteResult : String → String → Except ApiException Unit

/-- Observable outcome of one run of `kube_delete_empty_pods`: which delete
calls were issued (in order), which of those succeeded, which failed and
were logged, which pods were logged as skipped, whether the list failure
was logged, and the final result (a raised error or the return value). -/
structure CleanupOutcome where
  listFailureLogged : Bool
  deletesIssued : List String
  deletesSucceeded : List String
  deleteFailuresLogged : List String
  skippedLogged : List String
  result : Except PyError PyRet
deriving Repr, DecidableEq

/-- State threaded through the pod loop of `kube_delete_empty_pods`. -/
structure CleanupState where
  deletesIssued : List String
  deletesSucceeded : List String
  deleteFailuresLogged : List String
  skippedLogged : List String
deriving Repr, DecidableEq

/-- One iteration of the `for pod in pods.items` loop: a pod whose phase
equals the filter gets a delete call (whose `ApiException`, if any, is
caught and logged); any other pod is logged as still not done. -/
def cleanupStep (api : PodApi) (ns phase : String) (st : CleanupState)
    (pod : Pod) : CleanupState :=
  if pod.status.phase = phase then
    match api.deleteResult pod.metadata.name ns with
    | .ok _ =>
        { st with
          deletesIssued := st.deletesIssued ++ [pod.metadata.name]
          deletesSucceeded := st.deletesSucceeded ++ [pod.metadata.name] }
    | .error _ =>
        { st with
          deletesIssued := st.deletesIssued ++ [pod.metadata.name]
          deleteFailuresLogged := st.deleteFailuresLogged ++ [pod.metadata.name] }
  else
    { st with skippedLogged := st.skippedLogged ++ [pod.metadata.name] }

/-- `kube_delete_empty_pods(namespace=None, phase=None)`.

Defaults: `namespace or "default"`, `phase or "Succeeded"`.  The list call
is wrapped in `try/except ApiException` whose handler only logs; on a list
failure the local `pods` is never assigned, so the following
`pods.items` raises `UnboundLocalError` and no pod is processed.  On a
successful list, each pod is handled by `cleanupStep` and the function
falls through to a bare `return`, i.e. returns Python `None`. -/
def kube_delete_empty_pods (api : PodApi) (namespace_ : Option String := none)
    (phase : Option String := none) : CleanupOutcome :=
  let ns := pyOrStr namespace_ "default"
  let ph := pyOrStr phase "Succeeded"
  match api.listResult ns with
  | .error _ =>
      { listFailureLogged := true
        deletesIssued := []
        deletesSucceeded := []
        deleteFailuresLogged := []
        skippedLogged := []
        result := .error (.unboundLocal "pods") }
  | .ok pods =>
      let st := pods.foldl (cleanupStep api ns ph)
        { deletesIssued := []
          deletesSucceeded := []
          deleteFailuresLogged := []
          skippedLogged := [] }
      { listFailureLogged := false
        deletesIssued := st.deletesIssued
        deletesSucceeded := st.deletesSucceeded
        deleteFailuresLogged := st.deleteFailuresLogged
        skippedLogged := st.skippedLogged
        result := .ok .pyNone }

/-- Errors the builder path can raise before any network call: the Python
`AttributeError` raised when `extraConfig.<attr>` is accessed on a value
without that attribute (a plain `dict` or `None`), and the schema-mapping
failure of `_make_spec_from_dict` on an unrecognised key. -/
inductive KubeError where
  | attributeError (attr : String)
  | schemaMappingError (key : String)
deriving Repr, DecidableEq

/-- A loosely-typed key-value structure, as found in `extraConfig.volumes`,
`extraConfig.volumeMounts` and security contexts. -/
abbrev Dict : Type := List (String × String)

/-- The resource block carried by `extraConfig.resources`: a dict with
`requests{cpu, memory}` and `limits{cpu, memory}` (the four values the code
reads out by key). -/
structure ResourceBlock where
  cpu : String
  memory : String
deriving Repr, DecidableEq, Inhabited

/-- `extraConfig.resources` when present. -/
structure Resources where
  requests : ResourceBlock
  limits : ResourceBlock
deriving Repr, DecidableEq

/-- A proper `extraConfig` object: a config value exposing the six
attributes that `kube_create_job_object` reads. -/
structure ExtraConfig where
  resources : Option Resources
  volumeMounts : List Dict
  securityContext : Option Dict
  volumes : List Dict
  podSecurityContext : Option Dict
  node_selector : Option (List (String × String))
deriving Repr, DecidableEq

/-- The value actually bound to the `extraConfig` parameter of
`kube_create_job_object`: a proper config object, the plain empty dict `{}`
substituted by `kube_create_job`, or the parameter's default `None`.
Attribute access (`extraConfig.resources`, ...) succeeds only on a config
object; on `{}` or `None` it raises `AttributeError`. -/
inductive ExtraArg where
  | config (c : ExtraConfig)
  | emptyDict
  | pyNone
deriving Repr, DecidableEq

/-- `extraConfig.resources`. -/
def ExtraArg.attrResources : ExtraArg → Except KubeError (Option Resources)
  | .config c => .ok c.resources
  | .emptyDict => .error (.attributeError "resources")
  | .pyNone => .error (.attributeError "resources")

/-- `extraConfig.volumeMounts`. -/
def ExtraArg.attrVolumeMounts : ExtraArg → Except KubeError (List Dict)
  | .config c => .ok c.volumeMounts
  | .emptyDict => .error (.attributeError "volumeMounts")
  | .pyNone => .error (.attributeError "volumeMounts")

/-- `extraConfig.securityContext`. -/
def ExtraArg.attrSecurityContext : ExtraArg → Except KubeError (Option Dict)
  | .config c => .ok c.securityContext
  | .emptyDict => .error (.attributeError "securityContext")
  | .pyNone => .error (.attributeError "securityContext")

/-- `extraConfig.volumes`. -/
def ExtraArg.attrVolumes : ExtraArg → Except KubeError (List Dict)
  | .config c => .ok c.volumes
  | .emptyDict => .error (.attributeError "volumes")
  | .pyNone => .error (.attributeError "volumes")

/-- `extraConfig.podSecurityContext`. -/
def ExtraArg.attrPodSecurityContext : ExtraArg → Except KubeError (Option Dict)
  | .config c => .ok c.podSecurityContext
  | .emptyDict => .error (.attributeError "podSecurityContext")
  | .pyNone => .error (.attributeError "podSecurityContext")

/-- `extraConfig.node_selector`. -/
def ExtraArg.attrNodeSelector : ExtraArg → Except KubeError (Option (List (String × String)))
  | .config c => .ok c.node_selector
  | .emptyDict => .error (.attributeError "node_selector")
  | .pyNone => .error (.attributeError "node_selector")

/-- The recognised key sets of the external client's schema types that
`_make_spec_from_dict` maps dicts into.  The client library is an external
collaborator, so its schemas are a parameter of the development. -/
structure Schema where
  volumeMountKeys : List String
  securityContextKeys : List String
  volumeKeys : List String
  podSecurityContextKeys : List String
deriving Repr, DecidableEq

/-- Modelled from the spec: `_make_spec_from_dict` (from `owl_server/utils`,
whose source is not in the repository snapshot) is the generic
key-value-to-structured-field conversion of a dict into a target schema
object; a key unrecognised by the target schema is an error naming the
offending key.  The produced object is represented by its field map. -/
def make_spec_from_dict (known : List String) (d : Dict) :
    Except KubeError Dict :=
  match d.find? (fun kv => !known.contains kv.1) with
  | some kv => .error (.schemaMappingError kv.1)
  | none => .ok d

/-- The `if (ctx := ...) is not None: _make_spec_from_dict(ctx, T) else None`
pattern used for both security contexts (source lines 136-139 and
156-159). -/
def mapOptionalSpec (known : List String) : Option Dict → Except KubeError (Option Dict)
  | some d => (make_spec_from_dict known d).map some
  | none => .ok none

/-- `client.V1EnvVar(name=..., value=...)`. -/
structure V1EnvVar where
  name : String
  value : String
deriving Repr, DecidableEq, Inhabited

/-- `client.V1ResourceRequirements(**resources)`. -/
structure V1ResourceRequirements where
  requests : ResourceBlock
  limits : ResourceBlock
deriving Repr, DecidableEq, Inhabited

/-- `client.V1Container(...)` as constructed by the builder. -/
structure V1Container where
  name : String
  image : Option String
  env : List V1EnvVar
  image_pull_policy : String
  args : List String
  resources : Option V1ResourceRequirements
  volume_mounts : List Dict
  security_context : Option Dict
deriving Repr, DecidableEq, Inhabited

/-- `client.V1PodSpec(...)` as constructed by the builder. -/
structure V1PodSpec where
  containers : List V1Container
  restart_policy : String
  termination_grace_period_seconds : Nat
  volumes : List Dict
  service_account_name : Option String
  security_context : Option Dict
  node_selector : Option (List (String × String))
deriving Repr, DecidableEq, Inhabited

/-- `client.V1PodTemplateSpec()` with its `spec` field assigned. -/
structure V1PodTemplateSpec where
  spec : V1PodSpec
deriving Repr, DecidableEq, Inhabited

/-- `client.V1JobSpec(...)`. -/
structure V1JobSpec where
  ttl_seconds_after_finished : Nat
  template : V1PodTemplateSpec
  backoff_limit : Nat
deriving Repr, DecidableEq, Inhabited

/-- `client.V1ObjectMeta(namespace=..., name=...)`. -/
structure V1ObjectMeta where
  namespace_ : String
  name : String
deriving Repr, DecidableEq, Inhabited

/-- The `V1Job` body assembled by `kube_create_job_object` (its `status` is
the empty `V1JobStatus()` and carries no data). -/
structure V1Job where
  api_version : String
  kind : String
  metadata : V1ObjectMeta
  spec : V1JobSpec
deriving Repr, DecidableEq, Inhabited

/-- `kube_create_job_object(name, container_image, command=None,
namespace=None, container_name=None, env_vars=None, extraConfig=None,
service_account_name=None)`.

Builds the `V1Job` body.  Defaults: `env_vars or {}`,
`namespace or "default"`, `command or "sleep 60"`,
`container_name or "jobcontainer"`.  Environment values are `str(...)`
coerced (already strings here).  When `extraConfig.resources` is present, a
`V1ResourceRequirements` is built and the four values are appended to the
env list as `CPU_REQUESTS`, `MEM_REQUESTS`, `CPU_LIMITS`, `MEM_LIMITS`;
otherwise no resource requirement is attached.  Volume mounts, volumes and
both security contexts go through `make_spec_from_dict`.  The container
gets `image_pull_policy="IfNotPresent"` and `args=command.split()`; the pod
spec gets `restart_policy="Never"` and a 30 second grace period; the job
spec gets `ttl_seconds_after_finished=300` and `backoff_limit=2`.
`name` and `container_image` are never validated. -/
def kube_create_job_object (schema : Schema) (name : String)
    (container_image : Option String)
    (command : Option String := none)
    (namespace_ : Option String := none)
    (container_name : Option String := none)
    (env_vars : List (String × String) := [])
    (extraConfig : ExtraArg := .pyNone)
    (service_account_name : Option String := none) :
    Except KubeError V1Job :=
  let ns := pyOrStr namespace_ "default"
  let cmd := pyOrStr command "sleep 60"
  let cname := pyOrStr container_name "jobcontainer"
  let userEnv := env_vars.map (fun kv => V1EnvVar.mk kv.1 kv.2)
  match extraConfig.attrResources with
  | .error e => .error e
  | .ok resources =>
    let resourcesReq : Option V1ResourceRequirements :=
      match resources with
      | some res => some { requests := res.requests, limits := res.limits }
      | none => none
    let env_list :=
      match resources with
      | some res =>
          userEnv ++
            [⟨"CPU_REQUESTS", res.requests.cpu⟩,
             ⟨"MEM_REQUESTS", res.requests.memory⟩,
             ⟨"CPU_LIMITS", res.limits.cpu⟩,
             ⟨"MEM_LIMITS", res.limits.memory⟩]
      | none => userEnv
    match extraConfig.attrVolumeMounts with
    | .error e => .error e
    | .ok vms =>
      match vms.mapM (make_spec_from_dict schema.volumeMountKeys) with
      | .error e => .error e
      | .ok volume_mounts =>
        match extraConfig.attrSecurityContext with
        | .error e => .error e
        | .ok sc =>
          match mapOptionalSpec schema.securityContextKeys sc with
          | .error e => .error e
          | .ok secReq =>
            let container : V1Container :=
              { name := cname
                image := container_image
                env := env_list
                image_pull_policy := "IfNotPresent"
                args := pySplit cmd
                resources := resourcesReq
                volume_mounts := volume_mounts
                security_context := secReq }
            match extraConfig.attrVolumes with
            | .error e => .error e
            | .ok vols =>
              match vols.mapM (make_spec_from_dict schema.volumeKeys) with
              | .error e => .error e
              | .ok volumes =>
                match extraConfig.attrPodSecurityContext with
                | .error e => .error e
                | .ok psc =>
                  match mapOptionalSpec schema.podSecurityContextKeys psc with
                  | .error e => .error e
                  | .ok podSecReq =>
                    match extraConfig.attrNodeSelector with
                    | .error e => .error e
                    | .ok nodeSel =>
                      .ok
                        { api_version := "batch/v1"
                          kind := "Job"
                          metadata := { namespace_ := ns, name := name }
                          spec :=
                            { ttl_seconds_after_finished := 300
                              template :=
                                { spec :=
                                    { containers := [container]
                                      restart_policy := "Never"
                                      termination_grace_period_seconds := 30
                                      volumes := volumes
                                      service_account_name := service_account_name
                                      security_context := podSecReq
                                      node_selector := nodeSel } }
                              backoff_limit := 2 } }

/-- Outcome of `kube_create_job`: either an error raised before the network
call `create_namespaced_job(namespace, body)` was attempted, or that call
was issued with the given namespace and body. -/
inductive CreateJobOutcome where
  | raised (e : KubeError)
  | submitted (namespace_ : String) (body : V1Job)
deriving Repr, DecidableEq

/-- `kube_create_job(name, image, command=None, namespace=None,
extraConfig=None, env_vars=None, service_account_name=None)`.

Defaults the namespace and command, substitutes the plain empty dict `{}`
for a missing `extraConfig` (`extraConfig or {}`), builds the body via
`kube_create_job_object`, and only then performs the network call. -/
def kube_create_job (schema : Schema) (name : String) (image : String)
    (command : Option String := none)
    (namespace_ : Option String := none)
    (extraConfig : Option ExtraConfig := none)
    (env_vars : List (String × String) := [])
    (service_account_name : Option String := none) : CreateJobOutcome :=
  let ns := pyOrStr namespace_ "default"
  let arg : ExtraArg :=
    match extraConfig with
    | some c => .config c
    | none => .emptyDict
  match kube_create_job_object schema name (some image)
      (some (pyOrStr command "sleep 60")) (some ns) none env_vars arg
      service_account_name with
  | .error e => .raised e
  | .ok body => .submitted ns body

/-- The single deletion call issued by `kube_delete_job`:
`delete_namespaced_job(name, namespace or "default",
propagation_policy="Background", grace_period_seconds=0)`. -/
structure DeleteJobCall where
  name : String
  namespace_ : String
  propagation_policy : String
  grace_period_seconds : Nat
deriving Repr, DecidableEq

/-- `kube_delete_job(name, namespace=None)`: issues exactly one deletion
call with background propagation and a zero grace period, defaulting a
missing namespace to `"default"`. -/
def kube_delete_job (name : String) (namespace_ : Option String := none) :
    DeleteJobCall :=
  { name := name
    namespace_ := pyOrStr namespace_ "default"
    propagation_policy := "Background"
    grace_period_seconds := 0 }

/-! Statement-side helpers and concrete inputs used to exercise the model. -/

/-- The synthetic resource-introspection environment entries appended by the
builder: the four entries in the fixed order `CPU_REQUESTS`, `MEM_REQUESTS`,
`CPU_LIMITS`, `MEM_LIMITS` when resources are present, nothing otherwise. -/
def resourceEnvSuffix : Option Resources → List V1EnvVar
  | none => []
  | some res =>
      [⟨"CPU_REQUESTS", res.requests.cpu⟩,
       ⟨"MEM_REQUESTS", res.requests.memory⟩,
       ⟨"CPU_LIMITS", res.limits.cpu⟩,
       ⟨"MEM_LIMITS", res.limits.memory⟩]

/-- The resource-requirements object attached to the container: present
exactly when `extraConfig.resources` is present. -/
def resourceReqOf : Option Resources → Option V1ResourceRequirements
  | none => none
  | some res => some { requests := res.requests, limits := res.limits }

/-- The full argument bundle of one `kube_create_job_object` call, used to
state determinism of the builder. -/
structure JobRequestArgs where
  schema : Schema
  name : String
  container_image : Option String
  command : Option String
  namespace_ : Option String
  container_name : Option String
  env_vars : List (String × String)
  extraConfig : ExtraArg
  service_account_name : Option String
deriving Repr, DecidableEq

/-- `kube_create_job_object` applied to a bundled argument list. -/
def buildJob (r : JobRequestArgs) : Except KubeError V1Job :=
  kube_create_job_object r.schema r.name r.container_image r.command
    r.namespace_ r.container_name r.env_vars r.extraConfig
    r.service_account_name

/-- A pod in phase `Succeeded`. -/
def podS (n : String) : Pod :=
  { metadata := { name := n }, status := { phase := "Succeeded" } }

/-- A pod in phase `Running`. -/
def podR (n : String) : Pod :=
  { metadata := { name := n }, status := { phase := "Running" } }

/-- Three pods with phases Succeeded, Succeeded, Running. -/
def exListedPods : List Pod := [podS "pod-a", podS "pod-b", podR "pod-c"]

/-- An API environment where the list call returns the three pods and every
delete succeeds. -/
def exPodApi : PodApi :=
  { listResult := fun _ => .ok exListedPods
    deleteResult := fun _ _ => .ok () }

/-- An API environment where the delete of `pod-a` fails transiently. -/
def exPodApiOneFail : PodApi :=
  { listResult := fun _ => .ok exListedPods
    deleteResult := fun n _ =>
      if n = "pod-a" then .error ⟨"transient"⟩ else .ok () }

/-- An API environment where the initial list call raises `ApiException`. -/
def exPodApiListFail : PodApi :=
  { listResult := fun _ => .error ⟨"connection refused"⟩
    deleteResult := fun _ _ => .ok () }

/-- A small concrete schema for the external client types. -/
def exSchema : Schema :=
  { volumeMountKeys := ["name", "mount_path"]
    securityContextKeys := ["run_as_user"]
    volumeKeys := ["name", "empty_dir"]
    podSecurityContextKeys := ["fs_group"] }

/-- A concrete resource block. -/
def exResources : Resources :=
  { requests := { cpu := "1", memory := "1Gi" }
    limits := { cpu := "2", memory := "2Gi" } }

/-- A concrete `extraConfig` object with all optional parts present. -/
def exCfg : ExtraConfig :=
  { resources := some exResources
    volumeMounts := [[("name", "data"), ("mount_path", "/data")]]
    securityContext := some [("run_as_user", "1000")]
    volumes := [[("name", "data")]]
    podSecurityContext := some [("fs_group", "100")]
    node_selector := some [("disk", "ssd")] }

/-- A concrete `extraConfig` object with every optional part absent. -/
def exCfgNoRes : ExtraConfig :=
  { resources := none
    volumeMounts := []
    securityContext := none
    volumes := []
    podSecurityContext := none
    node_selector := none }

/-- A concrete, fully-populated builder call. -/
def exBuild : Except KubeError V1Job :=
  kube_create_job_object exSchema "job1" (some "repo/img:1")
    (some "run   task --fast") (some "ns1") (some "ctr")
    [("FOO", "bar"), ("BAZ", "qux")] (.config exCfg) (some "sa1")

/-- The job produced by `exBuild`. -/
def exJob : V1Job := exBuild.toOption.getD default

/-- A concrete builder call with `container_image` absent. -/
def exBuildNoImage : Except KubeError V1Job :=
  kube_create_job_object exSchema "job2" none none none none []
    (.config exCfgNoRes) none

/-- The job produced by `exBuildNoImage`. -/
def exJobNoImage : V1Job := exBuildNoImage.toOption.getD default

/-- The argument bundle of `exBuild`. -/
def exArgs : JobRequestArgs :=
  { schema := exSchema
    name := "job1"
    container_image := some "repo/img:1"
    command := some "run   task --fast"
    namespace_ := some "ns1"
    container_name := some "ctr"
    env_vars := [("FOO", "bar"), ("BAZ", "qux")]
    extraConfig := .config exCfg
    service_account_name := some "sa1" }

/-- Shape of every job the builder accepts: whenever
`kube_create_job_object` returns a job (for a proper config object), the
job carries the fixed metadata and constants and exactly one container of
the stated form. -/
theorem kube_create_job_object_ok (schema : Schema) (name : String)
    (container_image : Option String)
    (command namespace_ container_name : Option String)
    (env_vars : List (String × String)) (cfg : ExtraConfig)
    (service_account_name : Option String) (j : V1Job)
    (h : kube_create_job_object schema name container_image command namespace_
      container_name env_vars (.config cfg) service_account_name =
      Except.ok j) :
    j.api_version = "batch/v1" ∧
    j.kind = "Job" ∧
    j.metadata = ⟨pyOrStr namespace_ "default", name⟩ ∧
    j.spec.ttl_seconds_after_finished = 300 ∧
    j.spec.backoff_limit = 2 ∧
    j.spec.template.spec.restart_policy = "Never" ∧
    j.spec.template.spec.termination_grace_period_seconds = 30 ∧
    j.spec.template.spec.service_account_name = service_account_name ∧
    j.spec.template.spec.node_selector = cfg.node_selector ∧
    ∃ c, j.spec.template.spec.containers = [c] ∧
      c.name = pyOrStr container_name "jobcontainer" ∧
      c.image = container_image ∧
      c.env = env_vars.map (fun kv => V1EnvVar.mk kv.1 kv.2) ++
        resourceEnvSuffix cfg.resources ∧
      c.image_pull_policy = "IfNotPresent" ∧
      c.args = pySplit (pyOrStr command "sleep 60") ∧
      c.resources = resourceReqOf cfg.resources := by
  rcases hvm : cfg.volumeMounts.mapM (make_spec_from_dict schema.volumeMountKeys)
    with e | vmounts <;>
  rcases hsc : mapOptionalSpec schema.securityContextKeys cfg.securityContext
    with e2 | secReq <;>
  rcases hvols : cfg.volumes.mapM (make_spec_from_dict schema.volumeKeys)
    with e3 | vols <;>
  rcases hpsc : mapOptionalSpec schema.podSecurityContextKeys cfg.podSecurityContext
    with e4 | podSecReq <;>
  simp only [kube_create_job_object, ExtraArg.attrResources,
    ExtraArg.attrVolumeMounts, ExtraArg.attrSecurityContext,
    ExtraArg.attrVolumes, ExtraArg.attrPodSecurityContext,
    ExtraArg.attrNodeSelector, hvm, hsc, hvols, hpsc] at h <;>
  first
  | exact Except.noConfusion h
  | · rw [Except.ok.injEq] at h
      subst h
      refine ⟨rfl, rfl, rfl, rfl, rfl, rfl, rfl, rfl, rfl, _, rfl, rfl, rfl,
        ?_, rfl, rfl, ?_⟩ <;>
      rcases hres : cfg.resources with _ | res <;>
        simp [hres, resourceEnvSuffix, resourceReqOf]

/-- Tokens produced by `pySplitAux` contain no whitespace characters,
provided the token in progress contains none. -/
theorem pySplitAux_no_space :
    ∀ (l acc : List Char), (∀ ch ∈ acc, pyIsSpace ch = false) →
      ∀ t ∈ pySplitAux l acc, ∀ ch ∈ t, pyIsSpace ch = false := by
  intro l
  induction l with
  | nil =>
      intro acc hacc t ht ch hch
      cases acc with
      | nil => simp [pySplitAux] at ht
      | cons a as =>
          simp only [pySplitAux, List.mem_singleton] at ht
          subst ht
          exact hacc ch (List.mem_reverse.mp hch)
  | cons c rest ih =>
      intro acc hacc t ht ch hch
      cases acc with
      | nil =>
          rw [pySplitAux] at ht
          by_cases hc : pyIsSpace c = true
          · rw [if_pos hc] at ht
            exact ih [] (by intro x hx; cases hx) t ht ch hch
          · rw [if_neg hc] at ht
            refine ih [c] ?_ t ht ch hch
            intro x hx
            have h1 := List.mem_singleton.mp hx
            subst h1
            simpa using hc
      | cons a as =>
          rw [pySplitAux] at ht
          by_cases hc : pyIsSpace c = true
          · rw [if_pos hc] at ht
            rcases List.mem_cons.mp ht with h1 | h2
            · subst h1
              exact hacc ch (List.mem_reverse.mp hch)
            · exact ih [] (by intro x hx; cases hx) t h2 ch hch
          · rw [if_neg hc] at ht
            refine ih (c :: a :: as) ?_ t ht ch hch
            intro x hx
            rcases List.mem_cons.mp hx with h1 | h2
            · subst h1
              simpa using hc
            · exact hacc x h2

/-- No token of `pySplit s` contains a whitespace character. -/
theorem pySplit_no_space (s : String) :
    ∀ t ∈ pySplit s, ∀ ch ∈ t.data, pyIsSpace ch = false := by
  intro t ht ch hch
  simp only [pySplit, List.mem_map] at ht
  obtain ⟨l, hl, rfl⟩ := ht
  exact pySplitAux_no_space s.data [] (by intro x hx; cases hx) l hl ch hch

/-- C2 (code evaluated at the failing input): when the initial
`list_namespaced_pod` call raises `ApiException`, `kube_delete_empty_pods`
catches and logs that exception, issues no delete, and then raises
`UnboundLocalError` on the never-assigned local `pods` — it does not fail
with a `ListError` and the list failure is absorbed into a log line. -/
theorem C2_list_failure_unbound_local (api : PodApi)
    (namespace_ phase : Option String) (e : ApiException)
    (hlist : api.listResult (pyOrStr namespace_ "default") = Except.error e) :
    (kube_delete_empty_pods api namespace_ phase).listFailureLogged = true ∧
    (kube_delete_empty_pods api namespace_ phase).deletesIssued = [] ∧
    (kube_delete_empty_pods api namespace_ phase).result =
      Except.error (PyError.unboundLocal "pods") := by
  simp [kube_delete_empty_pods, hlist]

/-- Witness for `C2_list_failure_unbound_local` at a concrete environment. -/
theorem C2_list_failure_unbound_local_witness :
    (exPodApiListFail.listResult (pyOrStr (some "myns") "default") =
      Except.error ⟨"connection refused"⟩) ∧
    ((kube_delete_empty_pods exPodApiListFail (some "myns") none).listFailureLogged = true ∧
     (kube_delete_empty_pods exPodApiListFail (some "myns") none).deletesIssued = [] ∧
     (kube_delete_empty_pods exPodApiListFail (some "myns") none).result =
       Except.error (PyError.unboundLocal "pods")) :=
  ⟨rfl, C2_list_failure_unbound_local exPodApiListFail (some "myns") none
    ⟨"connection refused"⟩ rfl⟩

/-- C1 counterexample: on a namespace with pods {Succeeded, Succeeded,
Running} and filter "Succeeded" where every delete succeeds,
`kube_delete_empty_pods` issues the two deletes but returns Python `None`,
not the count 2. -/
theorem C1_returns_none_counterexample :
    (kube_delete_empty_pods exPodApi (some "default") (some "Succeeded")).deletesIssued =
      ["pod-a", "pod-b"] ∧
    (kube_delete_empty_pods exPodApi (some "default") (some "Succeeded")).result ≠
      Except.ok (PyRet.int 2) ∧
    (kube_delete_empty_pods exPodApi (some "default") (some "Succeeded")).result =
      Except.ok PyRet.pyNone := by
  decide

/-- C1 (amended): for any namespace holding exactly the three pods
{Succeeded, Succeeded, Running} under filter "Succeeded", the cleanup
issues deletes for exactly the two Succeeded pods, never deletes the
Running pod (it is only logged as skipped), logs a failed delete without
raising and without stopping the loop — but it returns `None` in every
case, never a count. -/
theorem C1_cleanup_best_effort_amended (api : PodApi)
    (namespace_ : Option String) (na nb nc : String)
    (hca : nc ≠ na) (hcb : nc ≠ nb)
    (hlist : api.listResult (pyOrStr namespace_ "default") =
      Except.ok [podS na, podS nb, podR nc]) :
    (kube_delete_empty_pods api namespace_ (some "Succeeded")).deletesIssued =
      [na, nb] ∧
    nc ∉ (kube_delete_empty_pods api namespace_ (some "Succeeded")).deletesIssued ∧
    (kube_delete_empty_pods api namespace_ (some "Succeeded")).skippedLogged =
      [nc] ∧
    (kube_delete_empty_pods api namespace_ (some "Succeeded")).result =
      Except.ok PyRet.pyNone ∧
    (kube_delete_empty_pods api namespace_ (some "Succeeded")).deletesSucceeded =
      ((if (api.deleteResult na (pyOrStr namespace_ "default")).isOk
        then [na] else []) ++
       (if (api.deleteResult nb (pyOrStr namespace_ "default")).isOk
        then [nb] else [])) ∧
    (kube_delete_empty_pods api namespace_ (some "Succeeded")).deleteFailuresLogged =
      ((if (api.deleteResult na (pyOrStr namespace_ "default")).isOk
        then [] else [na]) ++
       (if (api.deleteResult nb (pyOrStr namespace_ "default")).isOk
        then [] else [nb])) := by
  have hph : pyOrStr (some "Succeeded") "Succeeded" = "Succeeded" := rfl
  rcases hda : api.deleteResult na (pyOrStr namespace_ "default") with ea | ua <;>
  rcases hdb : api.deleteResult nb (pyOrStr namespace_ "default") with eb | ub <;>
  simp [kube_delete_empty_pods, hph, hlist, cleanupStep, podS, podR,
    List.foldl_cons, List.foldl_nil, Except.isOk, Except.toBool, hda, hdb,
    hca, hcb]

/-- Witness for `C1_cleanup_best_effort_amended` at the environment where
the delete of `pod-a` fails transiently. -/
theorem C1_cleanup_best_effort_amended_witness :
    ("pod-c" ≠ "pod-a") ∧ ("pod-c" ≠ "pod-b") ∧
    (exPodApiOneFail.listResult (pyOrStr (some "default") "default") =
      Except.ok [podS "pod-a", podS "pod-b", podR "pod-c"]) ∧
    ((kube_delete_empty_pods exPodApiOneFail (some "default") (some "Succeeded")).deletesIssued =
      ["pod-a", "pod-b"] ∧
     "pod-c" ∉ (kube_delete_empty_pods exPodApiOneFail (some "default") (some "Succeeded")).deletesIssued ∧
     (kube_delete_empty_pods exPodApiOneFail (some "default") (some "Succeeded")).skippedLogged =
       ["pod-c"] ∧
     (kube_delete_empty_pods exPodApiOneFail (some "default") (some "Succeeded")).result =
       Except.ok PyRet.pyNone ∧
     (kube_delete_empty_pods exPodApiOneFail (some "default") (some "Succeeded")).deletesSucceeded =
       ((if (exPodApiOneFail.deleteResult "pod-a" (pyOrStr (some "default") "default")).isOk
         then ["pod-a"] else []) ++
        (if (exPodApiOneFail.deleteResult "pod-b" (pyOrStr (some "default") "default")).isOk
         then ["pod-b"] else [])) ∧
     (kube_delete_empty_pods exPodApiOneFail (some "default") (some "Succeeded")).deleteFailuresLogged =
       ((if (exPodApiOneFail.deleteResult "pod-a" (pyOrStr (some "default") "default")).isOk
         then [] else ["pod-a"]) ++
        (if (exPodApiOneFail.deleteResult "pod-b" (pyOrStr (some "default") "default")).isOk
         then [] else ["pod-b"]))) :=
  ⟨by decide, by decide, rfl,
    C1_cleanup_best_effort_amended exPodApiOneFail (some "default")
      "pod-a" "pod-b" "pod-c" (by decide) (by decide) rfl⟩

/-- C3 counterexample: a builder call with `container_image` absent does
not fail at all (no `MissingRequiredFieldError` exists in the code) — it
returns a job. -/
theorem C3_missing_image_counterexample : exBuildNoImage.isOk = true := rfl

/-- C3 (amended): the builder performs no validation of `containerImage`.
A call with `container_image` absent that the builder accepts produces —
synchronously and without any network call, the builder being pure — a job
whose single container has `image = None`. -/
theorem C3_no_image_validation_amended (schema : Schema) (name : String)
    (command namespace_ container_name : Option String)
    (env_vars : List (String × String)) (cfg : ExtraConfig)
    (service_account_name : Option String) (j : V1Job)
    (h : kube_create_job_object schema name none command namespace_
      container_name env_vars (.config cfg) service_account_name =
      Except.ok j) :
    j.spec.template.spec.containers.map V1Container.image = [none] := by
  obtain ⟨-, -, -, -, -, -, -, -, -, c, hc, -, himg, -⟩ :=
    kube_create_job_object_ok schema name none command namespace_
      container_name env_vars cfg service_account_name j h
  rw [hc, List.map_singleton, himg]

/-- Witness for `C3_no_image_validation_amended` at `exBuildNoImage`. -/
theorem C3_no_image_validation_amended_witness :
    (exBuildNoImage = Except.ok exJobNoImage) ∧
    exJobNoImage.spec.template.spec.containers.map V1Container.image =
      [none] :=
  ⟨rfl, C3_no_image_validation_amended exSchema "job2" none none none []
    exCfgNoRes none exJobNoImage rfl⟩

/-- C4: in every job the builder accepts, the container's environment list
is the user-supplied entries followed by `resourceEnvSuffix` — the four
synthetic entries `CPU_REQUESTS`, `MEM_REQUESTS`, `CPU_LIMITS`,
`MEM_LIMITS` in that fixed order when `resources` is present, and nothing
when it is absent — and the attached resource-requirements object is
`resourceReqOf`, present exactly when `resources` is. -/
theorem C4_resource_env_entries (schema : Schema) (name : String)
    (container_image : Option String)
    (command namespace_ container_name : Option String)
    (env_vars : List (String × String)) (cfg : ExtraConfig)
    (service_account_name : Option String) (j : V1Job)
    (h : kube_create_job_object schema name container_image command namespace_
      container_name env_vars (.config cfg) service_account_name =
      Except.ok j) :
    j.spec.template.spec.containers.map V1Container.env =
      [env_vars.map (fun kv => V1EnvVar.mk kv.1 kv.2) ++
        resourceEnvSuffix cfg.resources] ∧
    j.spec.template.spec.containers.map V1Container.resources =
      [resourceReqOf cfg.resources] := by
  obtain ⟨-, -, -, -, -, -, -, -, -, c, hc, -, -, henv, -, -, hres⟩ :=
    kube_create_job_object_ok schema name container_image command namespace_
      container_name env_vars cfg service_account_name j h
  refine ⟨?_, ?_⟩ <;> rw [hc, List.map_singleton]
  · rw [henv]
  · rw [hres]

/-- Witness for `C4_resource_env_entries` at `exBuild` (resources
present). -/
theorem C4_resource_env_entries_witness :
    (exBuild = Except.ok exJob) ∧
    (exJob.spec.template.spec.containers.map V1Container.env =
      [[("FOO", "bar"), ("BAZ", "qux")].map (fun kv => V1EnvVar.mk kv.1 kv.2) ++
        resourceEnvSuffix exCfg.resources] ∧
     exJob.spec.template.spec.containers.map V1Container.resources =
       [resourceReqOf exCfg.resources]) :=
  ⟨rfl, C4_resource_env_entries exSchema "job1" (some "repo/img:1")
    (some "run   task --fast") (some "ns1") (some "ctr")
    [("FOO", "bar"), ("BAZ", "qux")] exCfg (some "sa1") exJob rfl⟩

/-- C10: in every job the builder accepts, the container's argument list is
`command.split()` on the defaulted command string; a missing or empty
command yields the tokens of the placeholder `"sleep 60"`, namely
`["sleep", "60"]`; and no token contains a whitespace character — no
quoting can survive `str.split()`. -/
theorem C10_args_whitespace_split (schema : Schema) (name : String)
    (container_image : Option String)
    (command namespace_ container_name : Option String)
    (env_vars : List (String × String)) (cfg : ExtraConfig)
    (service_account_name : Option String) (j : V1Job)
    (h : kube_create_job_object schema name container_image command namespace_
      container_name env_vars (.config cfg) service_account_name =
      Except.ok j) :
    j.spec.template.spec.containers.map V1Container.args =
      [pySplit (pyOrStr command "sleep 60")] ∧
    ((command = none ∨ command = some "") →
      j.spec.template.spec.containers.map V1Container.args =
        [["sleep", "60"]]) ∧
    (j.spec.template.spec.containers.all
      (fun c => c.args.all (fun t => t.data.all (fun ch => !pyIsSpace ch)))) =
      true := by
  obtain ⟨-, -, -, -, -, -, -, -, -, c, hc, -, -, -, -, hargs, -⟩ :=
    kube_create_job_object_ok schema name container_image command namespace_
      container_name env_vars cfg service_account_name j h
  refine ⟨?_, ?_, ?_⟩
  · rw [hc, List.map_singleton, hargs]
  · rintro (rfl | rfl) <;> rw [hc, List.map_singleton, hargs] <;> rfl
  · rw [hc, List.all_cons, List.all_nil, Bool.and_true, hargs,
      List.all_eq_true]
    intro t ht
    rw [List.all_eq_true]
    intro ch hch
    have hns := pySplit_no_space (pyOrStr command "sleep 60") t ht ch hch
    simp [hns]

/-- Witness for `C10_args_whitespace_split` at `exBuildNoImage` (missing
command, so the placeholder default is exercised). -/
theorem C10_args_whitespace_split_witness :
    (exBuildNoImage = Except.ok exJobNoImage) ∧
    (exJobNoImage.spec.template.spec.containers.map V1Container.args =
      [pySplit (pyOrStr none "sleep 60")] ∧
     ((none = (none : Option String) ∨ none = some "") →
       exJobNoImage.spec.template.spec.containers.map V1Container.args =
         [["sleep", "60"]]) ∧
     (exJobNoImage.spec.template.spec.containers.all
       (fun c => c.args.all (fun t => t.data.all (fun ch => !pyIsSpace ch)))) =
       true) :=
  ⟨rfl, C10_args_whitespace_split exSchema "job2" none none none none []
    exCfgNoRes none exJobNoImage rfl⟩

/-- C5: every job the builder accepts has a pod template with exactly one
container and `restartPolicy = "Never"`. -/
theorem C5_single_container_restart_never (schema : Schema) (name : String)
    (container_image : Option String)
    (command namespace_ container_name : Option String)
    (env_vars : List (String × String)) (cfg : ExtraConfig)
    (service_account_name : Option String) (j : V1Job)
    (h : kube_create_job_object schema name container_image command namespace_
      container_name env_vars (.config cfg) service_account_name =
      Except.ok j) :
    j.spec.template.spec.containers.length = 1 ∧
    j.spec.template.spec.restart_policy = "Never" := by
  obtain ⟨-, -, -, -, -, hrestart, -, -, -, c, hc, -⟩ :=
    kube_create_job_object_ok schema name container_image command namespace_
      container_name env_vars cfg service_account_name j h
  exact ⟨by rw [hc]; rfl, hrestart⟩

/-- Witness for `C5_single_container_restart_never` at `exBuild`. -/
theorem C5_single_container_restart_never_witness :
    (exBuild = Except.ok exJob) ∧
    (exJob.spec.template.spec.containers.length = 1 ∧
     exJob.spec.template.spec.restart_policy = "Never") :=
  ⟨rfl, C5_single_container_restart_never exSchema "job1" (some "repo/img:1")
    (some "run   task --fast") (some "ns1") (some "ctr")
    [("FOO", "bar"), ("BAZ", "qux")] exCfg (some "sa1") exJob rfl⟩

/-- C6: every job the builder accepts carries the fixed constants —
grace period 30, finished-job retention 300, backoff limit 2 — and its
container's image-pull policy is `IfNotPresent`. -/
theorem C6_fixed_constants (schema : Schema) (name : String)
    (container_image : Option String)
    (command namespace_ container_name : Option String)
    (env_vars : List (String × String)) (cfg : ExtraConfig)
    (service_account_name : Option String) (j : V1Job)
    (h : kube_create_job_object schema name container_image command namespace_
      container_name env_vars (.config cfg) service_account_name =
      Except.ok j) :
    j.spec.template.spec.termination_grace_period_seconds = 30 ∧
    j.spec.ttl_seconds_after_finished = 300 ∧
    j.spec.backoff_limit = 2 ∧
    j.spec.template.spec.containers.map V1Container.image_pull_policy =
      ["IfNotPresent"] := by
  obtain ⟨-, -, -, httl, hback, -, hgrace, -, -, c, hc, -, -, -, hpull, -, -⟩ :=
    kube_create_job_object_ok schema name container_image command namespace_
      container_name env_vars cfg service_account_name j h
  refine ⟨hgrace, httl, hback, ?_⟩
  rw [hc, List.map_singleton, hpull]

/-- Witness for `C6_fixed_constants` at `exBuild`. -/
theorem C6_fixed_constants_witness :
    (exBuild = Except.ok exJob) ∧
    (exJob.spec.template.spec.termination_grace_period_seconds = 30 ∧
     exJob.spec.ttl_seconds_after_finished = 300 ∧
     exJob.spec.backoff_limit = 2 ∧
     exJob.spec.template.spec.containers.map V1Container.image_pull_policy =
       ["IfNotPresent"]) :=
  ⟨rfl, C6_fixed_constants exSchema "job1" (some "repo/img:1")
    (some "run   task --fast") (some "ns1") (some "ctr")
    [("FOO", "bar"), ("BAZ", "qux")] exCfg (some "sa1") exJob rfl⟩

/-- C7: `kube_delete_job` issues its single deletion call with background
propagation and a zero grace period, and a missing namespace defaults to
`"default"`. -/
theorem C7_delete_job_background_zero_grace (name : String)
    (namespace_ : Option String) :
    (kube_delete_job name namespace_).propagation_policy = "Background" ∧
    (kube_delete_job name namespace_).grace_period_seconds = 0 ∧
    (kube_delete_job name namespace_).name = name ∧
    (kube_delete_job name none).namespace_ = "default" :=
  ⟨rfl, rfl, rfl, rfl⟩

/-- C8: the builder is deterministic — structurally identical argument
bundles produce structurally identical job objects. -/
theorem C8_builder_deterministic (r1 r2 : JobRequestArgs) (h : r1 = r2) :
    buildJob r1 = buildJob r2 := by
  rw [h]

/-- Witness for `C8_builder_deterministic` at `exArgs`. -/
theorem C8_builder_deterministic_witness :
    (exArgs = exArgs) ∧ buildJob exArgs = buildJob exArgs :=
  ⟨rfl, C8_builder_deterministic exArgs exArgs rfl⟩

/-- C9: a `kube_create_job` call with `extraConfig` absent (or `None`)
substitutes the plain dict `{}`, on which the builder's very first
attribute access `extraConfig.resources` raises `AttributeError`; the
operation therefore always fails before the network call and the
default-`extraConfig` path can never produce a job. -/
theorem C9_default_extraConfig_raises (schema : Schema) (name image : String)
    (command namespace_ : Option String)
    (env_vars : List (String × String))
    (service_account_name : Option String) :
    kube_create_job schema name image command namespace_ none env_vars
      service_account_name =
      CreateJobOutcome.raised (KubeError.attributeError "resources") := rfl

end OwlK8s
